import Mathlib

/-!
Verification development for `src/learn.py` (hyperparameter search and model
selection). The Python module is shallowly embedded: the adapter class
`HyperoptSearchCV` becomes a record of its instance attributes (attributes that
are only created by assignment are `Option` fields, `none` meaning the
attribute is absent, so that reading an absent attribute is an
`AttributeError`); methods become state-passing functions returning
`Except Err` together with a trace of observable side effects (`Event`).
External collaborators (sklearn regressors, `cross_val_score`, hyperopt
`fmin` sampling) are opaque in the specification; they are modelled here by
concrete executable stand-ins whose interface shape matches the library
contract (row-aligned predictions, one scalar score per fold, a deterministic
sampler for the search space), since no claim depends on their numeric values.
-/

deriving instance DecidableEq for Except

namespace Learn

/-- Error taxonomy. Input-shape validation failures raised by the sklearn
validators `check_X_y` and `check_array` (Python `ValueError`) are
`shapeMismatch`; sklearn `check_is_fitted` raises `notFitted`; reading an
instance attribute that was never assigned raises `attributeError` with the
attribute name; looking up an unknown key in the estimator table raises
`keyError`; reading a capability attribute a model does not provide (the
`feature_importances_` read in `plot_feature_importance`) is
`unsupportedOperation`; `searchFailed` models the backend with an empty
trial list. -/
inductive Err where
  | shapeMismatch
  | notFitted
  | attributeError (name : String)
  | keyError (name : String)
  | unsupportedOperation
  | searchFailed
deriving DecidableEq, Repr

/-- Observable side effects of the embedded code: invoking the optimization
backend (`fmin`), the explicit `gc.collect()` call, delegating to the
underlying fitted model prediction, writing a figure file (`savefig`), and
persisting a serialized model (`dump`). -/
inductive Event where
  | backendInvoked
  | gcCollect
  | modelPredict
  | savefig (path : String)
  | dump (path : String)
deriving DecidableEq, Repr

/-- A hyperparameter configuration: parameter name to concrete value. -/
abbrev Config := List (String × Int)

/-- A search space: parameter name to a discrete domain, as in the discrete
space dictionaries of the source (for example the C and gamma grids). -/
abbrev Space := List (String × List Int)

/-- An unfitted estimator: the only observable state the adapter code touches
is its parameter assignment (`set_params`, `clone`). -/
structure Estimator where
  params : Config
deriving DecidableEq, Repr

/-- sklearn `clone`: a fresh unfitted copy with the same parameters. -/
def clone (e : Estimator) : Estimator :=
  Estimator.mk e.params

/-- Update or insert one parameter binding. -/
def setOne (ps : Config) (kv : String × Int) : Config :=
  if ps.any (fun p => p.1 == kv.1) then
    ps.map (fun p => if p.1 == kv.1 then kv else p)
  else ps ++ [kv]

/-- sklearn `set_params`: applies each keyword binding to the parameter
assignment of the estimator. In sklearn this mutates the receiver in place
and returns it; callers of this function must thread the result back into
any state that held the receiver. -/
def Estimator.set_params (e : Estimator) (kwargs : Config) : Estimator :=
  Estimator.mk (kwargs.foldl setOne e.params)

/-- A fitted regressor: the parameters it was configured with, the feature
count of the training matrix, and the training data. -/
structure FittedModel where
  params : Config
  nFeatures : Nat
  trainX : List (List Int)
  trainY : List Int
deriving DecidableEq, Repr

/-- Training an estimator on a dataset (the external `fit` of the underlying
regressor, opaque in the specification): records the configuration and the
data it saw. -/
def Estimator.fitModel (e : Estimator) (X : List (List Int)) (Y : List Int) :
    FittedModel :=
  FittedModel.mk e.params (X.headD []).length X Y

/-- Stand-in for the per-row prediction of the external regressor: a
deterministic function of the model and the row. -/
def predictRow (m : FittedModel) (row : List Int) : Int :=
  (m.params.map Prod.snd).sum + m.trainY.sum + row.sum

/-- The external model prediction: one prediction per input row (row-aligned,
as the library contract guarantees); rejects rows whose feature count does
not match the training matrix. -/
def FittedModel.predict (m : FittedModel) (X : List (List Int)) :
    Except Err (List Int) :=
  if X.all (fun r => r.length == m.nFeatures) then
    Except.ok (X.map (predictRow m))
  else Except.error Err.shapeMismatch

/-- Stand-in for one cross-validation fold score of the external
`cross_val_score` (opaque `score(model, X, y, split)` in the specification):
a deterministic rational function of its arguments. -/
def foldScore (est : Estimator) (X : List (List Int)) (y : List Int)
    (scoring : Option String) (i : Nat) : ℚ :=
  (((est.params.map Prod.snd).sum : Int) : ℚ) + ((y.sum : Int) : ℚ)
    + (X.length : ℚ) + ((scoring.getD "").length : ℚ) + (i : ℚ)

/-- The external `cross_val_score`: one score per fold; `cv = None` defaults
to 3 folds as in the sklearn version the source imports. -/
def cross_val_score (est : Estimator) (X : List (List Int)) (y : List Int)
    (scoring : Option String) (cv : Option Nat) : List ℚ :=
  (List.range (cv.getD 3)).map (foldScore est X y scoring)

/-- Arithmetic mean of a list of rationals (`.mean()` on the score array). -/
def listMean (l : List ℚ) : ℚ :=
  l.sum / (l.length : ℚ)

/-- Mean cross-validated score of a configured estimator, the quantity the
specification calls `mean_cv_score(config)`. -/
def mean_cv_score (est : Estimator) (X : List (List Int)) (y : List Int)
    (scoring : Option String) (cv : Option Nat) : ℚ :=
  listMean (cross_val_score est X y scoring cv)

/-- The adapter class `HyperoptSearchCV`. Constructor arguments are plain
fields; attributes only ever created by assignment inside methods
(`X_`, `Y_`, `best_params_`, `best_estimator_`) are `Option` fields starting
at `none`. The field `y_` exists solely to model attribute lookup of the
name `y_`, which no method ever assigns; it is `none` on every state the
class itself can construct. -/
structure HyperoptSearchCV where
  estimator : Estimator
  space : Space
  n_iter : Nat
  scoring : Option String
  cv : Option Nat
  n_jobs : Int
  verbose : Nat
  X_ : Option (List (List Int))
  Y_ : Option (List Int)
  y_ : Option (List Int)
  best_params_ : Option Config
  best_estimator_ : Option FittedModel
deriving DecidableEq, Repr

/-- The `__init__` method: stores the seven constructor arguments; no other
attribute exists yet. -/
def HyperoptSearchCV.init (estimator : Estimator) (space : Space)
    (n_iter : Nat) (scoring : Option String) (cv : Option Nat)
    (n_jobs : Int) (verbose : Nat) : HyperoptSearchCV :=
  { estimator := estimator, space := space, n_iter := n_iter,
    scoring := scoring, cv := cv, n_jobs := n_jobs, verbose := verbose,
    X_ := none, Y_ := none, y_ := none,
    best_params_ := none, best_estimator_ := none }

/-- sklearn `check_X_y`: requires a nonempty two-dimensional feature matrix
(all rows the same length) and matching row counts between the feature
matrix and the target vector. All of its `ValueError` outcomes are shape
validation failures. -/
def check_X_y (X : List (List Int)) (Y : List Int) : Except Err Unit :=
  if X.isEmpty then Except.error Err.shapeMismatch
  else if !(X.all fun r => r.length == (X.headD []).length) then
    Except.error Err.shapeMismatch
  else if X.length != Y.length then Except.error Err.shapeMismatch
  else Except.ok ()

/-- sklearn `check_array`: requires a nonempty two-dimensional matrix. -/
def check_array (X : List (List Int)) : Except Err Unit :=
  if X.isEmpty then Except.error Err.shapeMismatch
  else if !(X.all fun r => r.length == (X.headD []).length) then
    Except.error Err.shapeMismatch
  else Except.ok ()

/-- The private method `__objective`: evaluates one configuration by reading
`self.X_` and `self.y_` (in that argument order, so a missing `X_` is
reported first), cloning the stored estimator, applying the configuration,
and returning the negated mean of the cross-validated scores. Reading an
attribute that is absent raises `AttributeError` with that name, exactly as
in Python. -/
def HyperoptSearchCV.objective (s : HyperoptSearchCV) (kwargs : Config) :
    Except Err ℚ :=
  match s.X_ with
  | none => Except.error (Err.attributeError "X_")
  | some X =>
    match s.y_ with
    | none => Except.error (Err.attributeError "y_")
    | some y =>
      Except.ok
        (-(listMean (cross_val_score ((clone s.estimator).set_params kwargs)
          X y s.scoring s.cv)))

/-- The deterministic trial sampler standing in for the TPE suggestion of the
external backend (the specification treats the backend as an opaque
`minimize(objective, space, max_evaluations)`): trial `i` picks one value
from each parameter domain. -/
def sampleConfig (space : Space) (i : Nat) : Config :=
  space.map (fun kv => (kv.1, kv.2.getD (i % kv.2.length) 0))

/-- Evaluates the objective on each candidate in order; an error in any
evaluation aborts the whole run with that error, as an uncaught Python
exception would propagate out of `fmin`. -/
def runTrials (f : Config → Except Err ℚ) :
    List Config → Except Err (List (Config × ℚ))
  | [] => Except.ok []
  | c :: cs =>
    match f c with
    | Except.error e => Except.error e
    | Except.ok v =>
      match runTrials f cs with
      | Except.error e => Except.error e
      | Except.ok ts => Except.ok ((c, v) :: ts)

/-- Earliest configuration attaining the minimum observed loss. -/
def bestOfTrials : List (Config × ℚ) → Option (Config × ℚ)
  | [] => none
  | t :: ts =>
    match bestOfTrials ts with
    | none => some t
    | some b => if b.2 < t.2 then some b else some t

/-- The external `fmin` of the backend: runs `maxEvals` sampled trials and
returns the configuration with the minimum loss; a zero-trial run has no
best point. -/
def fmin (f : Config → Except Err ℚ) (space : Space) (maxEvals : Nat) :
    Except Err Config :=
  match runTrials f ((List.range maxEvals).map (sampleConfig space)) with
  | Except.error e => Except.error e
  | Except.ok ts =>
    match bestOfTrials ts with
    | some b => Except.ok b.1
    | none => Except.error Err.searchFailed

/-- The `fit` method. Validates the input shapes, binds the dataset to
`self.X_` and `self.Y_`, invokes the backend on the private objective, then
applies the winning configuration to the stored estimator with `set_params`
(which mutates the stored template in place) and refits it on the whole
dataset, assigning the result to `best_estimator_`; finally deletes `X_` and
`Y_` and calls `gc.collect()`. Returns the updated instance paired with the
trace of observable effects. -/
def HyperoptSearchCV.fit (s : HyperoptSearchCV) (X : List (List Int))
    (Y : List Int) : Except Err HyperoptSearchCV × List Event :=
  match check_X_y X Y with
  | Except.error e => (Except.error e, [])
  | Except.ok _ =>
    match fmin (HyperoptSearchCV.objective
        { s with X_ := some X, Y_ := some Y }) s.space s.n_iter with
    | Except.error e => (Except.error e, [Event.backendInvoked])
    | Except.ok best =>
      (Except.ok { s with
          estimator := s.estimator.set_params best,
          best_params_ := some best,
          best_estimator_ := some ((s.estimator.set_params best).fitModel X Y),
          X_ := none, Y_ := none },
        [Event.backendInvoked, Event.gcCollect])

/-- The `predict` method: `check_is_fitted` on the attribute list
`[best_params_, best_estimator_]` (missing either raises `NotFittedError`),
then `check_array`, then delegation to the fitted model. No attribute is
assigned, so the state is returned unchanged; the trace records whether the
underlying model prediction was invoked. -/
def HyperoptSearchCV.predict (s : HyperoptSearchCV) (X : List (List Int)) :
    Except Err (List Int) × HyperoptSearchCV × List Event :=
  match s.best_params_, s.best_estimator_ with
  | some _, some m =>
    match check_array X with
    | Except.error e => (Except.error e, s, [])
    | Except.ok _ => (FittedModel.predict m X, s, [Event.modelPredict])
  | _, _ => (Except.error Err.notFitted, s, [])

/-- A fitted sklearn-level model as the orchestrator sees one: its family
name and, when the model family provides one, its per-feature importance
vector (`feature_importances_`); `none` models the attribute being absent,
as on the kernel-machine regressor. -/
structure SKEstimator where
  family : String
  feature_importances_ : Option (List ℚ)
deriving DecidableEq, Repr

/-- Output path of the feature-importance figure in `main`. -/
def importancesPath : String :=
  "./documents/pictures/feature_importances.png"

/-- Directory prefix of the persisted estimators in `main`. -/
def estimatorsDir : String :=
  "./resources/estimators/"

/-- The function `plot_feature_importance`: reads `clf.feature_importances_`
before any file is written; on a model without that attribute the read
raises (the specification names this outcome `UnsupportedOperationError`),
so no figure file is produced. On a model with the attribute, the figure is
written to `path`. The style and axis calls touch no file and carry no
observable effect here. -/
def plot_feature_importance (clf : SKEstimator) (path : String) :
    Except Err Unit × List Event :=
  match clf.feature_importances_ with
  | none => (Except.error Err.unsupportedOperation, [])
  | some _ => (Except.ok (), [Event.savefig path])

/-- The estimator-table lookup `estimator[clf_name]` combined with the
external `RandomizedSearchCV(...).fit(...).best_estimator_` of the loop
body: for each known family it yields a fitted model of that family. Only
the tree-ensemble and gradient-boosted families expose
`feature_importances_`; the kernel-machine family does not. An unknown name
is a `KeyError` (`none`). The importance values are stand-ins for the
external fit result. -/
def randomizedSearchBest (name : String) : Option SKEstimator :=
  if name = "svm" then some (SKEstimator.mk "svm" none)
  else if name = "rf" then some (SKEstimator.mk "rf" (some [1/100, 3/100]))
  else if name = "xgb" then some (SKEstimator.mk "xgb" (some [2/100, 1/100]))
  else none

/-- One iteration of the `for clf_name in clf_names` loop of `main`: run the
randomized search for the family, render the feature-importance figure when
and only when the family is the tree-ensemble variant `rf`, then persist the
fitted best estimator under `./resources/estimators/<family>.pkl`. -/
def stepFamily (name : String) : Except Err Unit × List Event :=
  match randomizedSearchBest name with
  | none => (Except.error (Err.keyError name), [])
  | some best =>
    if name = "rf" then
      match plot_feature_importance best importancesPath with
      | (Except.error e, ev) => (Except.error e, ev)
      | (Except.ok _, ev) =>
        (Except.ok (), ev ++ [Event.dump (estimatorsDir ++ name ++ ".pkl")])
    else (Except.ok (), [Event.dump (estimatorsDir ++ name ++ ".pkl")])

/-- The main loop over the configured family list, sequential, aborting on
the first failure, accumulating the side-effect trace. -/
def mainLoop : List String → Except Err Unit × List Event
  | [] => (Except.ok (), [])
  | n :: ns =>
    match stepFamily n with
    | (Except.error e, ev) => (Except.error e, ev)
    | (Except.ok _, ev) =>
      match mainLoop ns with
      | (r, ev2) => (r, ev ++ ev2)

/-- The configured family list of `main` (only the kernel-machine family is
enabled in the source). -/
def clf_names : List String := ["svm"]

/-- The orchestration entry point `main`, after the external dataset load
(out of scope in the specification as a storage interface): the loop over
`clf_names`. -/
def main : Except Err Unit × List Event :=
  mainLoop clf_names

/-- A freshly constructed adapter on a small configuration, used as a
concrete evaluation point. -/
def adapterBug : HyperoptSearchCV :=
  HyperoptSearchCV.init (Estimator.mk [("C", 1)]) [("C", [5])] 1 none
    (some 1) 1 0

/-- An adapter state identical to `adapterBug` except that the attribute
`y_` has been assigned externally (in Python, `adapter.y_ = [7, 8]` before
calling `fit`); on such a state the private objective can evaluate, so the
search phase completes and the refit path is reachable. -/
def sC : HyperoptSearchCV :=
  { adapterBug with y_ := some [7, 8] }

/-- Concrete two-row, one-feature dataset. -/
def XC : List (List Int) := [[1], [2]]

/-- Concrete target vector for `XC`. -/
def YC : List Int := [7, 8]

/-- The state `HyperoptSearchCV.fit sC XC YC` actually reaches: the stored
estimator template has been reconfigured to the winning parameters, the
best attributes are populated, and the dataset attributes are deleted. -/
def sCFitted : HyperoptSearchCV :=
  { sC with
    estimator := Estimator.mk [("C", 5)],
    best_params_ := some [("C", 5)],
    best_estimator_ := some (FittedModel.mk [("C", 5)] 1 XC YC),
    X_ := none, Y_ := none }

/-- An adapter state with only the dataset attributes of the objective
assigned, used to evaluate the private objective directly. -/
def sW : HyperoptSearchCV :=
  { HyperoptSearchCV.init (Estimator.mk [("C", 3)]) [] 0 none (some 2) 1 0
    with
    X_ := some [[1]], y_ := some [2] }

theorem check_X_y_mismatch (X : List (List Int)) (Y : List Int)
    (h : X.length ≠ Y.length) :
    check_X_y X Y = Except.error Err.shapeMismatch := by
  unfold check_X_y
  split
  · rfl
  · split
    · rfl
    · split
      · rfl
      · rename_i hcond
        simp only [bne_iff_ne, ne_eq, not_not] at hcond
        exact absurd hcond h

/-- C1: the private scoring objective returns the negated mean of the
cross-validated scores of a clone of the bound estimator configured with the
given configuration, whenever the dataset attributes it reads are present:
`evaluate(config) = -1 * mean_cv_score(config)`. -/
theorem objective_negates_mean_cv_score (s : HyperoptSearchCV)
    (X : List (List Int)) (y : List Int) (c : Config)
    (hX : s.X_ = some X) (hy : s.y_ = some y) :
    HyperoptSearchCV.objective s c
      = Except.ok ((-1) * mean_cv_score ((clone s.estimator).set_params c)
          X y s.scoring s.cv) := by
  simp [HyperoptSearchCV.objective, mean_cv_score, hX, hy, neg_one_mul]

/-- Witness for C1 at a concrete adapter state and configuration. -/
theorem objective_negates_mean_cv_score_witness :
    (sW.X_ = some [[1]] ∧ sW.y_ = some [2])
    ∧ HyperoptSearchCV.objective sW [("C", 4)]
      = Except.ok ((-1) * mean_cv_score ((clone sW.estimator).set_params
          [("C", 4)]) [[1]] [2] sW.scoring sW.cv) :=
  ⟨⟨rfl, rfl⟩,
    objective_negates_mean_cv_score sW [[1]] [2] [("C", 4)] rfl rfl⟩

/-- C3: on any input whose feature-matrix row count differs from the
target-vector length, `fit` fails with the shape-mismatch error and its
side-effect trace is empty, hence the optimization backend was never
invoked. -/
theorem fit_shape_mismatch_before_backend (s : HyperoptSearchCV)
    (X : List (List Int)) (Y : List Int) (h : X.length ≠ Y.length) :
    HyperoptSearchCV.fit s X Y = (Except.error Err.shapeMismatch, []) := by
  unfold HyperoptSearchCV.fit
  rw [check_X_y_mismatch X Y h]

/-- Witness for C3 with 10 feature rows and 9 target values. -/
theorem fit_shape_mismatch_before_backend_witness :
    (List.replicate 10 ([0] : List Int)).length
      ≠ (List.replicate 9 (0 : Int)).length
    ∧ HyperoptSearchCV.fit adapterBug (List.replicate 10 [0])
        (List.replicate 9 0)
      = (Except.error Err.shapeMismatch, []) :=
  ⟨by decide,
    fit_shape_mismatch_before_backend adapterBug _ _ (by decide)⟩

/-- C4: calling `predict` on an adapter whose `best_params_` and
`best_estimator_` attributes are not populated fails with `NotFittedError`,
and its trace is empty, so the underlying model prediction is never
invoked. -/
theorem predict_before_fit_not_fitted (s : HyperoptSearchCV)
    (X : List (List Int))
    (hp : s.best_params_ = none) (hb : s.best_estimator_ = none) :
    (HyperoptSearchCV.predict s X).1 = Except.error Err.notFitted
    ∧ (HyperoptSearchCV.predict s X).2.2 = [] := by
  simp [HyperoptSearchCV.predict, hp, hb]

/-- Witness for C4 on a freshly constructed adapter. -/
theorem predict_before_fit_not_fitted_witness :
    (adapterBug.best_params_ = none ∧ adapterBug.best_estimator_ = none)
    ∧ (HyperoptSearchCV.predict adapterBug [[1]]).1
        = Except.error Err.notFitted
    ∧ (HyperoptSearchCV.predict adapterBug [[1]]).2.2 = [] :=
  ⟨⟨rfl, rfl⟩, predict_before_fit_not_fitted adapterBug [[1]] rfl rfl⟩

/-- C10: `plot_feature_importance` on a model without the
`feature_importances_` attribute fails with the unsupported-operation error
and writes no output file (empty trace). -/
theorem plot_feature_importance_no_attr (clf : SKEstimator) (path : String)
    (h : clf.feature_importances_ = none) :
    plot_feature_importance clf path
      = (Except.error Err.unsupportedOperation, []) := by
  unfold plot_feature_importance
  rw [h]

/-- Witness for C10 on the kernel-machine model. -/
theorem plot_feature_importance_no_attr_witness :
    (SKEstimator.mk "svm" none).feature_importances_ = none
    ∧ plot_feature_importance (SKEstimator.mk "svm" none) importancesPath
      = (Except.error Err.unsupportedOperation, []) :=
  ⟨rfl,
    plot_feature_importance_no_attr (SKEstimator.mk "svm" none)
      importancesPath rfl⟩

theorem objective_missing_y (s : HyperoptSearchCV) (c : Config)
    (X : List (List Int)) (hX : s.X_ = some X) (hy : s.y_ = none) :
    HyperoptSearchCV.objective s c
      = Except.error (Err.attributeError "y_") := by
  simp [HyperoptSearchCV.objective, hX, hy]

theorem runTrials_cons_error (f : Config → Except Err ℚ) (c : Config)
    (cs : List Config) (e : Err) (hf : f c = Except.error e) :
    runTrials f (c :: cs) = Except.error e := by
  simp [runTrials, hf]

/-- C2: on any adapter state whose target attribute `y_` is absent — which
holds on every state the class itself can construct, because no method ever
assigns `y_` while `fit` assigns `Y_` — any dataset the validators accept
and any evaluation budget of at least one trial make `fit` fail during the
search phase (the backend was invoked, as the trace shows) with an
attribute error on `y_`; in particular `fit` never returns a fitted
instance along this path. -/
theorem fit_search_phase_attribute_error (s : HyperoptSearchCV)
    (X : List (List Int)) (Y : List Int)
    (hy : s.y_ = none) (hn : 1 ≤ s.n_iter)
    (hok : check_X_y X Y = Except.ok ()) :
    HyperoptSearchCV.fit s X Y
      = (Except.error (Err.attributeError "y_"), [Event.backendInvoked]) := by
  have hobj : ∀ c, HyperoptSearchCV.objective
      { s with X_ := some X, Y_ := some Y } c
      = Except.error (Err.attributeError "y_") :=
    fun c => objective_missing_y _ c X rfl hy
  have hf : fmin (HyperoptSearchCV.objective
        { s with X_ := some X, Y_ := some Y }) s.space s.n_iter
      = Except.error (Err.attributeError "y_") := by
    unfold fmin
    cases hc : (List.range s.n_iter).map (sampleConfig s.space) with
    | nil =>
      rw [List.map_eq_nil_iff, List.range_eq_nil] at hc
      omega
    | cons c cs =>
      rw [runTrials_cons_error _ c cs (Err.attributeError "y_") (hobj c)]
  unfold HyperoptSearchCV.fit
  rw [hok, hf]

/-- Witness for C2 on a concrete freshly constructed adapter and dataset. -/
theorem fit_search_phase_attribute_error_witness :
    (adapterBug.y_ = none ∧ 1 ≤ adapterBug.n_iter
      ∧ check_X_y [[1], [2]] [7, 8] = Except.ok ())
    ∧ HyperoptSearchCV.fit adapterBug [[1], [2]] [7, 8]
      = (Except.error (Err.attributeError "y_"), [Event.backendInvoked]) :=
  ⟨⟨rfl, Nat.le_refl 1, by decide⟩,
    fit_search_phase_attribute_error adapterBug [[1], [2]] [7, 8] rfl
      (Nat.le_refl 1) (by decide)⟩

/-- C5 evidence: on a freshly constructed adapter and a valid two-row
dataset (the concrete instance of the spec scenario
`SearchAdapter.fit(D).predict(D.features)`), `fit` itself already fails with
the attribute error on `y_`, so the fit-then-predict pipeline never
succeeds and never returns a prediction vector. -/
theorem fit_predict_pipeline_fails_on_missing_target_attr :
    (HyperoptSearchCV.fit adapterBug [[1], [2]] [7, 8]).1
      = Except.error (Err.attributeError "y_") := by decide

/-- C6 counterexample: a concrete run in which the search phase completes
(the state has the target attribute assigned, as Python permits) and `fit`
succeeds, yet the stored estimator template of the returned instance no
longer carries its original parameters: the template was reconfigured in
place, not freshly copied. -/
theorem fit_leaves_template_unmodified_cex :
    (HyperoptSearchCV.fit sC XC YC).1.map HyperoptSearchCV.estimator
      = Except.ok (Estimator.mk [("C", 5)])
    ∧ sC.estimator ≠ Estimator.mk [("C", 5)] := by decide

/-- C6 amended: whenever `fit` returns successfully, the stored estimator
template of the returned instance equals the template reconfigured with the
winning parameters (mutated in place, no fresh copy), and `best_estimator_`
is that reconfigured template refit on the entire dataset passed to
`fit`. -/
theorem fit_mutates_template_and_refits_full_data
    (s sF : HyperoptSearchCV) (X : List (List Int)) (Y : List Int)
    (h : (HyperoptSearchCV.fit s X Y).1 = Except.ok sF) :
    ∃ best, sF.estimator = s.estimator.set_params best
      ∧ sF.best_params_ = some best
      ∧ sF.best_estimator_
          = some ((s.estimator.set_params best).fitModel X Y) := by
  unfold HyperoptSearchCV.fit at h
  split at h
  · simp at h
  · split at h
    · simp at h
    · rename_i best hf
      simp only [Except.ok.injEq] at h
      subst h
      exact ⟨best, rfl, rfl, rfl⟩

/-- Witness for C6 on the concrete successful run. -/
theorem fit_mutates_template_and_refits_full_data_witness :
    (HyperoptSearchCV.fit sC XC YC).1 = Except.ok sCFitted
    ∧ ∃ best, sCFitted.estimator = sC.estimator.set_params best
      ∧ sCFitted.best_params_ = some best
      ∧ sCFitted.best_estimator_
          = some ((sC.estimator.set_params best).fitModel XC YC) :=
  ⟨by decide,
    fit_mutates_template_and_refits_full_data sC sCFitted XC YC (by decide)⟩

/-- C7: whenever `fit` returns successfully, the returned instance has
`best_params_` and `best_estimator_` populated and the dataset attributes
`X_` and `Y_` deleted, and the trace shows the explicit memory reclamation
after the backend invocation. -/
theorem fit_success_populates_and_releases (s sF : HyperoptSearchCV)
    (X : List (List Int)) (Y : List Int) (tr : List Event)
    (h : HyperoptSearchCV.fit s X Y = (Except.ok sF, tr)) :
    sF.best_params_.isSome = true ∧ sF.best_estimator_.isSome = true
    ∧ sF.X_ = none ∧ sF.Y_ = none
    ∧ tr = [Event.backendInvoked, Event.gcCollect] := by
  unfold HyperoptSearchCV.fit at h
  split at h
  · simp at h
  · split at h
    · simp at h
    · rename_i best hf
      simp only [Prod.mk.injEq, Except.ok.injEq] at h
      obtain ⟨h1, h2⟩ := h
      subst h1
      subst h2
      exact ⟨rfl, rfl, rfl, rfl, rfl⟩

/-- Witness for C7 on the concrete successful run. -/
theorem fit_success_populates_and_releases_witness :
    HyperoptSearchCV.fit sC XC YC
      = (Except.ok sCFitted, [Event.backendInvoked, Event.gcCollect])
    ∧ (sCFitted.best_params_.isSome = true
      ∧ sCFitted.best_estimator_.isSome = true
      ∧ sCFitted.X_ = none ∧ sCFitted.Y_ = none
      ∧ [Event.backendInvoked, Event.gcCollect]
          = [Event.backendInvoked, Event.gcCollect]) :=
  ⟨by decide,
    fit_success_populates_and_releases sC sCFitted XC YC
      [Event.backendInvoked, Event.gcCollect] (by decide)⟩

theorem predict_state_unchanged (s : HyperoptSearchCV)
    (X : List (List Int)) :
    (HyperoptSearchCV.predict s X).2.1 = s := by
  unfold HyperoptSearchCV.predict
  split
  · split <;> rfl
  · rfl

/-- C8: on a fitted adapter, two successive `predict` calls with the same
input return identical prediction results, and neither call changes the
adapter state, which therefore remains fitted. -/
theorem predict_idempotent_state_preserving (s : HyperoptSearchCV)
    (X : List (List Int))
    (hp : s.best_params_.isSome = true)
    (hb : s.best_estimator_.isSome = true) :
    (HyperoptSearchCV.predict (HyperoptSearchCV.predict s X).2.1 X).1
      = (HyperoptSearchCV.predict s X).1
    ∧ (HyperoptSearchCV.predict s X).2.1 = s
    ∧ (HyperoptSearchCV.predict (HyperoptSearchCV.predict s X).2.1 X).2.1 = s
    ∧ (HyperoptSearchCV.predict s X).2.1.best_params_.isSome = true
    ∧ (HyperoptSearchCV.predict s X).2.1.best_estimator_.isSome = true := by
  have h1 := predict_state_unchanged s X
  refine ⟨by rw [h1], h1, by rw [h1]; exact predict_state_unchanged s X,
    by rw [h1]; exact hp, by rw [h1]; exact hb⟩

/-- Witness for C8 on the concrete fitted state. -/
theorem predict_idempotent_state_preserving_witness :
    (sCFitted.best_params_.isSome = true
      ∧ sCFitted.best_estimator_.isSome = true)
    ∧ (HyperoptSearchCV.predict
          (HyperoptSearchCV.predict sCFitted XC).2.1 XC).1
        = (HyperoptSearchCV.predict sCFitted XC).1
    ∧ (HyperoptSearchCV.predict sCFitted XC).2.1 = sCFitted
    ∧ (HyperoptSearchCV.predict
          (HyperoptSearchCV.predict sCFitted XC).2.1 XC).2.1 = sCFitted
    ∧ (HyperoptSearchCV.predict sCFitted XC).2.1.best_params_.isSome = true
    ∧ (HyperoptSearchCV.predict
          sCFitted XC).2.1.best_estimator_.isSome = true :=
  ⟨⟨rfl, rfl⟩, predict_idempotent_state_preserving sCFitted XC rfl rfl⟩

/-- C9: for every known model family processed by one iteration of the main
loop, the iteration succeeds, the fitted best estimator is persisted under
`./resources/estimators/<family>.pkl`, and the feature-importance figure is
rendered if and only if the family is the tree-ensemble variant `rf`. -/
theorem step_persists_and_renders_iff_rf (name : String)
    (h : name = "svm" ∨ name = "rf" ∨ name = "xgb") :
    (stepFamily name).1 = Except.ok ()
    ∧ Event.dump (estimatorsDir ++ name ++ ".pkl") ∈ (stepFamily name).2
    ∧ ((Event.savefig importancesPath ∈ (stepFamily name).2)
        ↔ name = "rf") := by
  rcases h with h | h | h <;> subst h <;> decide

/-- Witness for C9 at the tree-ensemble family. -/
theorem step_persists_and_renders_iff_rf_witness :
    ("rf" = "svm" ∨ "rf" = "rf" ∨ "rf" = "xgb")
    ∧ ((stepFamily "rf").1 = Except.ok ()
      ∧ Event.dump (estimatorsDir ++ "rf" ++ ".pkl") ∈ (stepFamily "rf").2
      ∧ ((Event.savefig importancesPath ∈ (stepFamily "rf").2)
          ↔ "rf" = "rf")) :=
  ⟨Or.inr (Or.inl rfl),
    step_persists_and_renders_iff_rf "rf" (Or.inr (Or.inl rfl))⟩

end Learn
